import Mathlib

/-!
Verification of the bootstrap / control-plane bridge of the liftinstall
desktop installer (src/main.rs).  The Rust `main` function is embedded
shallowly: every external effect (filesystem probes, config and metadata
parsing, socket binds, host-name resolution, the directory dialog) is an
input supplied through an `Env` record, and `main` becomes a pure function
`mainRun : Env -> Except String MainResult`, where `Except.error msg` models
a fatal process termination (a panic raised by `expect` / `log_expect`)
carrying the diagnostic `msg`, and `MainResult` records everything the run
constructed: the shared state handle, the bound server instances, and the
parameters handed to the web-view `run` call.  The web-view invoke handler
is embedded separately as `invoke_handler`.
-/

/-- Configuration section `general`; the only field `main.rs` consumes is the
application name (`config.general.name`). -/
structure General where
  name : String
deriving DecidableEq, Repr, Inhabited

/-- Embedded configuration, parsed from the build-time TOML payload.  Only the
`general` section is consumed by this layer. -/
structure Config where
  general : General
deriving DecidableEq, Repr, Inhabited

/-- Opaque payload of the on-disk `metadata.json` artifact; its schema is owned
by the external `installer` module, so it is kept abstract here. -/
structure Metadata where
  raw : String
deriving DecidableEq, Repr, Inhabited

/-- Modelled from the spec: the ApplicationState built by `InstallerFramework`
(the `installer` module is not part of the sources under verification).  It is
one of Fresh (built directly from configuration) or Existing (rehydrated from
the parsed metadata artifact). -/
inductive InstallerFramework where
  | fresh (config : Config)
  | existing (metadata : Metadata)
deriving DecidableEq, Repr, Inhabited

/-- Modelled from the spec: `InstallerFramework::new(config)` constructs Fresh
state directly from configuration. -/
def InstallerFramework.new (config : Config) : InstallerFramework :=
  InstallerFramework.fresh config

/-- Modelled from the spec: `InstallerFramework::new_with_db(config, path)`
attempts to parse the metadata artifact; on success it yields the Existing
state equal to the parsed content, on parse failure it returns an error.  The
parse outcome is an environment input since the parser lives outside the
verified sources. -/
def InstallerFramework.new_with_db (_config : Config)
    (parse_outcome : Except String Metadata) : Except String InstallerFramework :=
  parse_outcome.map InstallerFramework.existing

/-- A resolved socket address: host plus port, as produced by
`to_socket_addrs`. -/
structure SocketAddr where
  host : String
  port : Nat
deriving DecidableEq, Repr, Inhabited

/-- Rust `SocketAddr::set_port`: replace the port, keep the host. -/
def SocketAddr.set_port (a : SocketAddr) (p : Nat) : SocketAddr :=
  { a with port := p }

/-- The `Arc<RwLock<InstallerFramework>>` shared state handle: a
reference-counted, lock-protected wrapper built once; `clone` hands out the
same handle, modelled here by propagating the identical value. -/
structure SharedStateHandle where
  state : InstallerFramework
deriving DecidableEq, Repr, Inhabited

/-- One Local Control Service instance (`rest::WebServer`): it is constructed
with a clone of the shared state handle and the address it bound. -/
structure WebServer where
  framework : SharedStateHandle
  address : SocketAddr
deriving DecidableEq, Repr, Inhabited

/-- Everything a successful run of `main` constructs: the shared handle, the
negotiated port, the started server instances, the chosen HTTP address, and
the window parameters passed to the web-view `run` call. -/
structure MainResult where
  framework : SharedStateHandle
  target_port : Nat
  servers : List WebServer
  http_address : SocketAddr
  url : String
  window_title : String
  window_size : Nat × Nat
  resizable : Bool
  debug : Bool
deriving DecidableEq, Repr, Inhabited

/-- The external world as `main` observes it: whether each fallible effect
succeeds and what it returns.  `bind_ok` tells for each concrete address
whether `WebServer::with_addr` succeeds on it. -/
structure Env where
  logger_ok : Bool
  config_result : Except String Config
  current_exe : Option String
  exe_parent : Option String
  metadata_exists : Bool
  metadata_parse : Except String Metadata
  ephemeral_bind_ok : Bool
  local_addr_ok : Bool
  ephemeral_port : Nat
  resolve_localhost : Except String (List SocketAddr)
  bind_ok : SocketAddr → Bool

/-- The metadata three-way case of `main.rs` lines 86-93: if `metadata.json`
exists beside the executable, rehydrate through `new_with_db` and die with
"Unable to parse metadata" on failure; otherwise start fresh. -/
def bootstrap (env : Env) (config : Config) : Except String InstallerFramework :=
  if env.metadata_exists then
    match InstallerFramework.new_with_db config env.metadata_parse with
    | Except.ok fw => Except.ok fw
    | Except.error _ => Except.error "Unable to parse metadata"
  else
    Except.ok (InstallerFramework.new config)

/-- The server-starting loop of `main.rs` lines 116-127: for each resolved
address, override its port with the negotiated one and start a `WebServer` on
it, dying with "Failed to bind to address" on any failure; `http_address` is
overwritten with each successfully bound address. -/
def bindLoop (handle : SharedStateHandle) (bnd : SocketAddr → Bool) (p : Nat) :
    List SocketAddr → List WebServer → Option SocketAddr →
    Except String (List WebServer × Option SocketAddr)
  | [], servers, http_address => Except.ok (servers, http_address)
  | a :: rest, servers, _ =>
    let address := a.set_port p
    if bnd address then
      bindLoop handle bnd p rest (servers ++ [WebServer.mk handle address]) (some address)
    else
      Except.error "Failed to bind to address"

/-- Shallow embedding of `fn main()` (src/main.rs lines 73-179): the strictly
sequential pipeline of fallible steps, each an `expect` / `log_expect` whose
failure is a fatal termination with the quoted diagnostic. -/
def mainRun (env : Env) : Except String MainResult :=
  if !env.logger_ok then Except.error "Unable to setup logging!" else
  match env.config_result with
  | Except.error _ => Except.error "Config file could not be read"
  | Except.ok config =>
    let app_name := config.general.name
    match env.current_exe with
    | none => Except.error "Current executable could not be found"
    | some _ =>
      match env.exe_parent with
      | none => Except.error "Parent directory of executable could not be found"
      | some _ =>
        match bootstrap env config with
        | Except.error e => Except.error e
        | Except.ok framework =>
          if !env.ephemeral_bind_ok then
            Except.error "At least one local address should be free"
          else if !env.local_addr_ok then
            Except.error "Should be able to pull address from listener"
          else
            let target_port := env.ephemeral_port
            match env.resolve_localhost with
            | Except.error _ => Except.error "No localhost address found"
            | Except.ok addresses =>
              let handle := SharedStateHandle.mk framework
              match bindLoop handle env.bind_ok target_port addresses [] none with
              | Except.error e => Except.error e
              | Except.ok (servers, http_address) =>
                match http_address with
                | none => Except.error "No HTTP address found"
                | some http_address =>
                  let url := "http://localhost:" ++ toString http_address.port
                  Except.ok
                    { framework := handle
                      target_port := target_port
                      servers := servers
                      http_address := http_address
                      url := url
                      window_title := app_name ++ " Installer"
                      window_size := (1024, 500)
                      resizable := false
                      debug := true }

/-- One hexadecimal digit, lowercase, as emitted by the JSON serializer. -/
def hexDigit (n : Nat) : Char :=
  if n < 10 then Char.ofNat (48 + n) else Char.ofNat (87 + n)

/-- Four-digit lowercase hexadecimal rendering used in JSON \u escapes. -/
def hex4 (n : Nat) : String :=
  String.mk [hexDigit (n / 4096 % 16), hexDigit (n / 256 % 16),
             hexDigit (n / 16 % 16), hexDigit (n % 16)]

/-- JSON escaping of a single character as `serde_json::to_string` performs it
on a string value: quote and backslash are escaped, control characters below
0x20 use the short escapes or a \u escape, everything else passes through. -/
def escapeChar (c : Char) : String :=
  if c = Char.ofNat 34 then String.mk [Char.ofNat 92, Char.ofNat 34]
  else if c = Char.ofNat 92 then String.mk [Char.ofNat 92, Char.ofNat 92]
  else if c = Char.ofNat 8 then String.mk [Char.ofNat 92, Char.ofNat 98]
  else if c = Char.ofNat 9 then String.mk [Char.ofNat 92, Char.ofNat 116]
  else if c = Char.ofNat 10 then String.mk [Char.ofNat 92, Char.ofNat 110]
  else if c = Char.ofNat 12 then String.mk [Char.ofNat 92, Char.ofNat 102]
  else if c = Char.ofNat 13 then String.mk [Char.ofNat 92, Char.ofNat 114]
  else if c.toNat < 32 then String.mk [Char.ofNat 92, Char.ofNat 117] ++ hex4 c.toNat
  else String.singleton c

/-- JSON string-literal encoding of a string, i.e. the behaviour of
`serde_json::to_string(&result)` on a `String` value. -/
def jsonEncodeString (s : String) : String :=
  "\"" ++ String.join (s.data.map escapeChar) ++ "\""

/-- The one known bridge command shape (src/main.rs lines 68-71). -/
inductive CallbackType where
  | SelectInstallDir (callback_name : String)
deriving DecidableEq, Repr

/-- Shallow embedding of the web-view invoke handler (src/main.rs lines
148-177).  `decoded` is the outcome of `serde_json::from_str` on the textual
bridge message (the serde decoder is an external crate, so its verdict is an
input); `dialog` is the path the directory chooser returned, empty on user
cancellation.  The result is either a fatal termination or the unchanged
shared state handle paired with the list of scripts injected via `wv.eval`. -/
def invoke_handler (framework : SharedStateHandle)
    (decoded : Except String CallbackType) (dialog : String) :
    Except String (SharedStateHandle × List String) :=
  match decoded with
  | Except.error _ => Except.error "Unable to parse string"
  | Except.ok (CallbackType.SelectInstallDir callback_name) =>
    let result := dialog
    if result.length > 0 then
      let resultJson := jsonEncodeString result
      let command := callback_name ++ "(" ++ resultJson ++ ");"
      Except.ok (framework, [command])
    else
      Except.ok (framework, [])

/-- A small concrete configuration used by the evaluation witnesses. -/
def sampleConfig : Config := ⟨⟨"Test"⟩⟩

/-- A concrete shared state handle holding fresh state. -/
def sampleHandle : SharedStateHandle := ⟨InstallerFramework.fresh sampleConfig⟩

/-- A concrete IPv4 loopback candidate as returned by resolution (port 0). -/
def addrA : SocketAddr := ⟨"127.0.0.1", 0⟩

/-- A concrete second loopback candidate of another address family (port 0). -/
def addrB : SocketAddr := ⟨"ip6-localhost", 0⟩

/-- A fully healthy environment: no metadata artifact, two resolved loopback
candidates, every bind succeeds. -/
def envFresh : Env where
  logger_ok := true
  config_result := Except.ok sampleConfig
  current_exe := some "/opt/app/installer"
  exe_parent := some "/opt/app"
  metadata_exists := false
  metadata_parse := Except.error "unused"
  ephemeral_bind_ok := true
  local_addr_ok := true
  ephemeral_port := 45678
  resolve_localhost := Except.ok [addrA, addrB]
  bind_ok := fun _ => true

/-- The value `mainRun envFresh` computes, spelled out. -/
def resultFresh : MainResult where
  framework := ⟨InstallerFramework.fresh sampleConfig⟩
  target_port := 45678
  servers := [⟨⟨InstallerFramework.fresh sampleConfig⟩, ⟨"127.0.0.1", 45678⟩⟩,
              ⟨⟨InstallerFramework.fresh sampleConfig⟩, ⟨"ip6-localhost", 45678⟩⟩]
  http_address := ⟨"ip6-localhost", 45678⟩
  url := "http://localhost:45678"
  window_title := "Test Installer"
  window_size := (1024, 500)
  resizable := false
  debug := true

/-- Like `envFresh` but the metadata artifact exists and is malformed. -/
def envBadMeta : Env where
  logger_ok := true
  config_result := Except.ok sampleConfig
  current_exe := some "/opt/app/installer"
  exe_parent := some "/opt/app"
  metadata_exists := true
  metadata_parse := Except.error "unexpected token"
  ephemeral_bind_ok := true
  local_addr_ok := true
  ephemeral_port := 45678
  resolve_localhost := Except.ok [addrA, addrB]
  bind_ok := fun _ => true

/-- Like `envFresh` but host-name resolution returns no candidate at all. -/
def envNoAddrs : Env where
  logger_ok := true
  config_result := Except.ok sampleConfig
  current_exe := some "/opt/app/installer"
  exe_parent := some "/opt/app"
  metadata_exists := false
  metadata_parse := Except.error "unused"
  ephemeral_bind_ok := true
  local_addr_ok := true
  ephemeral_port := 45678
  resolve_localhost := Except.ok []
  bind_ok := fun _ => true

/-- Like `envFresh` but logger initialization fails. -/
def envNoLogger : Env where
  logger_ok := false
  config_result := Except.ok sampleConfig
  current_exe := some "/opt/app/installer"
  exe_parent := some "/opt/app"
  metadata_exists := false
  metadata_parse := Except.error "unused"
  ephemeral_bind_ok := true
  local_addr_ok := true
  ephemeral_port := 45678
  resolve_localhost := Except.ok [addrA, addrB]
  bind_ok := fun _ => true

/-- Like `envFresh` but only the IPv4 candidate binds; the second candidate
fails after the first has already bound. -/
def envPartialBind : Env where
  logger_ok := true
  config_result := Except.ok sampleConfig
  current_exe := some "/opt/app/installer"
  exe_parent := some "/opt/app"
  metadata_exists := false
  metadata_parse := Except.error "unused"
  ephemeral_bind_ok := true
  local_addr_ok := true
  ephemeral_port := 45678
  resolve_localhost := Except.ok [addrA, addrB]
  bind_ok := fun s => s.host == "127.0.0.1"

theorem bindLoop_ok_servers (hd : SharedStateHandle) (bnd : SocketAddr → Bool) (p : Nat) :
    ∀ (addrs : List SocketAddr) (acc : List WebServer) (ha : Option SocketAddr)
      (servers : List WebServer) (http : Option SocketAddr),
      bindLoop hd bnd p addrs acc ha = Except.ok (servers, http) →
      servers = acc ++ addrs.map (fun a => WebServer.mk hd (SocketAddr.set_port a p)) := by
  intro addrs
  induction addrs with
  | nil =>
    intro acc ha servers http h
    simp [bindLoop] at h
    simp [h.1]
  | cons a rest ih =>
    intro acc ha servers http h
    simp only [bindLoop] at h
    split at h
    · have := ih (acc ++ [WebServer.mk hd (SocketAddr.set_port a p)]) (some (SocketAddr.set_port a p)) servers http h
      simp [this]
    · cases h

theorem bindLoop_ok_http (hd : SharedStateHandle) (bnd : SocketAddr → Bool) (p : Nat) :
    ∀ (addrs : List SocketAddr) (acc : List WebServer) (ha : Option SocketAddr)
      (servers : List WebServer) (http : Option SocketAddr),
      bindLoop hd bnd p addrs acc ha = Except.ok (servers, http) →
      (http = ha ∧ addrs = []) ∨ ∃ a ∈ addrs, http = some (SocketAddr.set_port a p) := by
  intro addrs
  induction addrs with
  | nil =>
    intro acc ha servers http h
    simp [bindLoop] at h
    simp [h.2]
  | cons a rest ih =>
    intro acc ha servers http h
    simp only [bindLoop] at h
    split at h
    · have := ih (acc ++ [WebServer.mk hd (SocketAddr.set_port a p)]) (some (SocketAddr.set_port a p)) servers http h
      rcases this with ⟨h1, h2⟩ | ⟨b, hb, h2⟩
      · exact Or.inr ⟨a, by simp, h1⟩
      · exact Or.inr ⟨b, by simp [hb], h2⟩
    · cases h

theorem bindLoop_ok_all (hd : SharedStateHandle) (bnd : SocketAddr → Bool) (p : Nat) :
    ∀ (addrs : List SocketAddr) (acc : List WebServer) (ha : Option SocketAddr)
      (servers : List WebServer) (http : Option SocketAddr),
      bindLoop hd bnd p addrs acc ha = Except.ok (servers, http) →
      ∀ a ∈ addrs, bnd (SocketAddr.set_port a p) = true := by
  intro addrs
  induction addrs with
  | nil => intro acc ha servers http h a ha'; cases ha'
  | cons a rest ih =>
    intro acc ha servers http h b hb
    simp only [bindLoop] at h
    split at h
    · rcases List.mem_cons.mp hb with rfl | hb'
      · assumption
      · exact ih _ _ servers http h b hb'
    · cases h

theorem bindLoop_first_fail (hd : SharedStateHandle) (bnd : SocketAddr → Bool) (p : Nat) :
    ∀ (pre : List SocketAddr) (a : SocketAddr) (post : List SocketAddr)
      (acc : List WebServer) (ha : Option SocketAddr),
      (∀ b ∈ pre, bnd (SocketAddr.set_port b p) = true) →
      bnd (SocketAddr.set_port a p) = false →
      bindLoop hd bnd p (pre ++ a :: post) acc ha = Except.error "Failed to bind to address" := by
  intro pre
  induction pre with
  | nil =>
    intro a post acc ha _ hfail
    simp [bindLoop, hfail]
  | cons b rest ih =>
    intro a post acc ha hpre hfail
    have hb : bnd (SocketAddr.set_port b p) = true := hpre b (by simp)
    simp only [List.cons_append, bindLoop, hb, if_true]
    exact ih a post _ _ (fun x hx => hpre x (by simp [hx])) hfail

theorem mainRun_ok_inv (env : Env) (r : MainResult) (h : mainRun env = Except.ok r) :
    env.logger_ok = true ∧
    ∃ config, env.config_result = Except.ok config ∧
    ∃ fw, bootstrap env config = Except.ok fw ∧
    env.ephemeral_bind_ok = true ∧
    env.local_addr_ok = true ∧
    ∃ addrs, env.resolve_localhost = Except.ok addrs ∧
    r.framework = SharedStateHandle.mk fw ∧
    r.target_port = env.ephemeral_port ∧
    bindLoop (SharedStateHandle.mk fw) env.bind_ok env.ephemeral_port addrs [] none
      = Except.ok (r.servers, some r.http_address) ∧
    r.url = "http://localhost:" ++ toString r.http_address.port ∧
    r.window_title = config.general.name ++ " Installer" ∧
    r.window_size = (1024, 500) ∧
    r.resizable = false ∧
    r.debug = true := by
  unfold mainRun at h
  split at h
  · cases h
  · rename_i hlog
    split at h
    · cases h
    · rename_i config hcfg
      split at h
      · cases h
      · split at h
        · cases h
        · split at h
          · cases h
          · rename_i fw hboot
            split at h
            · cases h
            · split at h
              · cases h
              · rename_i heph hloc
                split at h
                · cases h
                · rename_i addrs hres
                  dsimp only at h
                  split at h
                  · cases h
                  · rename_i servers http hloop
                    split at h
                    · cases h
                    · rename_i http_address hhttp
                      injection h with h
                      subst h
                      refine ⟨by simpa using hlog, config, hcfg, fw, hboot,
                        by simpa using heph, by simpa using hloc, addrs, hres, rfl, rfl, ?_, rfl, rfl, rfl, rfl, rfl⟩
                      rw [hloop]

/-- Helper: in a successful run every started server binds the negotiated
port. -/
theorem servers_port_aux (env : Env) (r : MainResult) (h : mainRun env = Except.ok r) :
    ∀ s ∈ r.servers, s.address.port = env.ephemeral_port := by
  obtain ⟨hl, config, hcfg, fw, hboot, heph, hloc, addrs, hres, hfr, htp, hloop, hurl,
    htitle, hsize, hresz, hdbg⟩ := mainRun_ok_inv env r h
  have hs := bindLoop_ok_servers _ _ _ _ _ _ _ _ hloop
  intro s hsmem
  rw [hs] at hsmem
  simp at hsmem
  obtain ⟨a, _, rfl⟩ := hsmem
  rfl

/-- Helper: in a successful run the address used for the UI URL carries the
negotiated port. -/
theorem http_port_aux (env : Env) (r : MainResult) (h : mainRun env = Except.ok r) :
    r.http_address.port = env.ephemeral_port := by
  obtain ⟨hl, config, hcfg, fw, hboot, heph, hloc, addrs, hres, hfr, htp, hloop, hurl,
    htitle, hsize, hresz, hdbg⟩ := mainRun_ok_inv env r h
  have hh := bindLoop_ok_http _ _ _ _ _ _ _ _ hloop
  rcases hh with ⟨h1, _⟩ | ⟨a, _, h2⟩
  · cases h1
  · injection h2 with h2
    rw [h2]
    rfl

/-- C1: three-way case on the metadata artifact. -/
theorem bootstrap_three_way (env : Env) (config : Config)
    (hlog : env.logger_ok = true) (hcfg : env.config_result = Except.ok config)
    (hexe : env.current_exe.isSome = true) (hpar : env.exe_parent.isSome = true) :
    (env.metadata_exists = false →
      ∀ r, mainRun env = Except.ok r → r.framework.state = InstallerFramework.fresh config) ∧
    (∀ m, env.metadata_exists = true → env.metadata_parse = Except.ok m →
      ∀ r, mainRun env = Except.ok r → r.framework.state = InstallerFramework.existing m) ∧
    (∀ e, env.metadata_exists = true → env.metadata_parse = Except.error e →
      mainRun env = Except.error "Unable to parse metadata") := by
  obtain ⟨exe, hexe2⟩ := Option.isSome_iff_exists.mp hexe
  obtain ⟨par, hpar2⟩ := Option.isSome_iff_exists.mp hpar
  refine ⟨?_, ?_, ?_⟩
  · intro hmeta r hr
    obtain ⟨hl, config2, hcfg2, fw, hboot, heph, hloc, addrs, hres, hfr, hrest⟩ :=
      mainRun_ok_inv env r hr
    rw [hcfg] at hcfg2
    injection hcfg2 with hc
    subst hc
    simp [bootstrap, hmeta, InstallerFramework.new] at hboot
    rw [hfr]
    exact hboot.symm
  · intro m hmeta hparse r hr
    obtain ⟨hl, config2, hcfg2, fw, hboot, heph, hloc, addrs, hres, hfr, hrest⟩ :=
      mainRun_ok_inv env r hr
    rw [hcfg] at hcfg2
    injection hcfg2 with hc
    subst hc
    simp [bootstrap, hmeta, InstallerFramework.new_with_db, hparse, Except.map] at hboot
    rw [hfr]
    exact hboot.symm
  · intro e hmeta hparse
    simp [mainRun, hlog, hcfg, hexe2, hpar2, bootstrap, hmeta, hparse,
      InstallerFramework.new_with_db, Except.map]

/-- C2: SelectInstallDir dispatch injects exactly one script on a non-empty
selection and none on cancellation. -/
theorem select_install_dir_dispatch (fw : SharedStateHandle) (c p : String) :
    (p.length > 0 →
      invoke_handler fw (Except.ok (CallbackType.SelectInstallDir c)) p =
        Except.ok (fw, [c ++ "(" ++ jsonEncodeString p ++ ");"])) ∧
    (p.length = 0 →
      invoke_handler fw (Except.ok (CallbackType.SelectInstallDir c)) p =
        Except.ok (fw, [])) := by
  constructor
  · intro hp
    simp [invoke_handler, hp]
  · intro hp
    simp [invoke_handler, hp]

/-- C3: decode failure is fatal. -/
theorem decode_failure_fatal (fw : SharedStateHandle) (e dialog : String) :
    invoke_handler fw (Except.error e) dialog = Except.error "Unable to parse string" := rfl

/-- C4: no bindable candidate is fatal. -/
theorem no_bindable_candidate_fatal (env : Env) (config : Config) (exe par : String)
    (addrs : List SocketAddr) (fw : InstallerFramework)
    (hlog : env.logger_ok = true) (hcfg : env.config_result = Except.ok config)
    (hexe : env.current_exe = some exe) (hpar : env.exe_parent = some par)
    (hboot : bootstrap env config = Except.ok fw)
    (heph : env.ephemeral_bind_ok = true) (hloc : env.local_addr_ok = true)
    (hres : env.resolve_localhost = Except.ok addrs)
    (hfail : ∀ a ∈ addrs, env.bind_ok (SocketAddr.set_port a env.ephemeral_port) = false) :
    mainRun env = Except.error
      (if addrs = [] then "No HTTP address found" else "Failed to bind to address") := by
  cases addrs with
  | nil =>
    simp [mainRun, hlog, hcfg, hexe, hpar, hboot, heph, hloc, hres, bindLoop]
  | cons a rest =>
    have hfa : env.bind_ok (SocketAddr.set_port a env.ephemeral_port) = false :=
      hfail a (by simp)
    have hbl := bindLoop_first_fail (SharedStateHandle.mk fw) env.bind_ok env.ephemeral_port
      [] a rest [] none (by simp) hfa
    simp only [List.nil_append] at hbl
    simp [mainRun, hlog, hcfg, hexe, hpar, hboot, heph, hloc, hres, hbl]

/-- C5: the ephemeral port is reused on every bound candidate. -/
theorem port_negotiation_reuse (env : Env) (r : MainResult) (h : mainRun env = Except.ok r) :
    r.target_port = env.ephemeral_port ∧
    (∀ s ∈ r.servers, s.address.port = env.ephemeral_port) ∧
    r.http_address.port = env.ephemeral_port := by
  obtain ⟨hl, config, hcfg, fw, hboot, heph, hloc, addrs, hres, hfr, htp, hrest⟩ :=
    mainRun_ok_inv env r h
  exact ⟨htp, servers_port_aux env r h, http_port_aux env r h⟩

/-- C6: one server per resolved candidate, all sharing the one handle. -/
theorem one_instance_per_candidate (env : Env) (r : MainResult) (addrs : List SocketAddr)
    (h : mainRun env = Except.ok r) (hres : env.resolve_localhost = Except.ok addrs) :
    r.servers = addrs.map
      (fun a => WebServer.mk r.framework (SocketAddr.set_port a env.ephemeral_port)) ∧
    r.servers.length = addrs.length ∧
    (∀ s ∈ r.servers, s.framework = r.framework) := by
  obtain ⟨hl, config, hcfg, fw, hboot, heph, hloc, addrs2, hres2, hfr, htp, hloop, hrest⟩ :=
    mainRun_ok_inv env r h
  rw [hres] at hres2
  injection hres2 with he
  subst he
  have hs := bindLoop_ok_servers _ _ _ _ _ _ _ _ hloop
  simp only [List.nil_append] at hs
  rw [hfr]
  refine ⟨hs, ?_, ?_⟩
  · rw [hs, List.length_map]
  · intro s hsmem
    rw [hs] at hsmem
    simp at hsmem
    obtain ⟨a, _, rfl⟩ := hsmem
    rfl

/-- C7: window parameters and URL of the UI Host launch. -/
theorem ui_host_params (env : Env) (r : MainResult) (config : Config)
    (hcfg : env.config_result = Except.ok config) (h : mainRun env = Except.ok r) :
    r.window_title = config.general.name ++ " Installer" ∧
    r.window_size = (1024, 500) ∧ r.resizable = false ∧ r.debug = true ∧
    r.url = "http://localhost:" ++ toString env.ephemeral_port := by
  obtain ⟨hl, config2, hcfg2, fw, hboot, heph, hloc, addrs, hres, hfr, htp, hloop, hurl,
    htitle, hsize, hresz, hdbg⟩ := mainRun_ok_inv env r h
  rw [hcfg] at hcfg2
  injection hcfg2 with hc
  subst hc
  refine ⟨htitle, hsize, hresz, hdbg, ?_⟩
  rw [hurl, http_port_aux env r h]

/-- C8: each fatal startup precondition terminates with its diagnostic. -/
theorem fatal_startup_sequence (env : Env) :
    (env.logger_ok = false → mainRun env = Except.error "Unable to setup logging!") ∧
    (∀ e, env.logger_ok = true → env.config_result = Except.error e →
      mainRun env = Except.error "Config file could not be read") ∧
    (∀ config, env.logger_ok = true → env.config_result = Except.ok config →
      env.current_exe = none →
      mainRun env = Except.error "Current executable could not be found") ∧
    (∀ config exe, env.logger_ok = true → env.config_result = Except.ok config →
      env.current_exe = some exe → env.exe_parent = none →
      mainRun env = Except.error "Parent directory of executable could not be found") := by
  refine ⟨?_, ?_, ?_, ?_⟩ <;> intros <;> simp_all [mainRun]

/-- C9: a single bind failure is fatal even after earlier successes. -/
theorem bind_failure_all_or_nothing (env : Env) (config : Config) (exe par : String)
    (fw : InstallerFramework) (pre : List SocketAddr) (a : SocketAddr) (post : List SocketAddr)
    (hlog : env.logger_ok = true) (hcfg : env.config_result = Except.ok config)
    (hexe : env.current_exe = some exe) (hpar : env.exe_parent = some par)
    (hboot : bootstrap env config = Except.ok fw)
    (heph : env.ephemeral_bind_ok = true) (hloc : env.local_addr_ok = true)
    (hres : env.resolve_localhost = Except.ok (pre ++ a :: post))
    (hpre : ∀ b ∈ pre, env.bind_ok (SocketAddr.set_port b env.ephemeral_port) = true)
    (hfail : env.bind_ok (SocketAddr.set_port a env.ephemeral_port) = false) :
    mainRun env = Except.error "Failed to bind to address" := by
  have hbl := bindLoop_first_fail (SharedStateHandle.mk fw) env.bind_ok env.ephemeral_port
    pre a post [] none hpre hfail
  simp [mainRun, hlog, hcfg, hexe, hpar, hboot, heph, hloc, hres, hbl]

/-- C10: dispatch leaves the shared state untouched. -/
theorem dispatch_preserves_state (fw : SharedStateHandle)
    (decoded : Except String CallbackType) (dialog : String)
    (st : SharedStateHandle) (scripts : List String)
    (h : invoke_handler fw decoded dialog = Except.ok (st, scripts)) :
    st = fw := by
  cases decoded with
  | error e => simp [invoke_handler] at h
  | ok c =>
    cases c with
    | SelectInstallDir n =>
      simp only [invoke_handler] at h
      split at h
      · injection h with h
        exact (congrArg Prod.fst h).symm
      · injection h with h
        exact (congrArg Prod.fst h).symm

/-- Witness for C1: the concrete malformed-metadata environment dies with the
metadata diagnostic. -/
theorem bootstrap_three_way_witness :
    mainRun envBadMeta = Except.error "Unable to parse metadata" :=
  (bootstrap_three_way envBadMeta sampleConfig rfl rfl rfl rfl).2.2 "unexpected token" rfl rfl

/-- Witness for C2: selecting /tmp/x for callback onDir injects exactly the
expected script. -/
theorem select_install_dir_dispatch_witness :
    invoke_handler sampleHandle (Except.ok (CallbackType.SelectInstallDir "onDir")) "/tmp/x" =
      Except.ok (sampleHandle, ["onDir(\"/tmp/x\");"]) := by
  have h := (select_install_dir_dispatch sampleHandle "onDir" "/tmp/x").1 (by decide)
  rw [h]
  rfl

/-- Witness for C4: the environment with an empty candidate set dies with the
no-address diagnostic. -/
theorem no_bindable_candidate_fatal_witness :
    mainRun envNoAddrs = Except.error "No HTTP address found" := by
  have h := no_bindable_candidate_fatal envNoAddrs sampleConfig "/opt/app/installer" "/opt/app"
    [] (InstallerFramework.fresh sampleConfig) rfl rfl rfl rfl rfl rfl rfl rfl (by simp)
  simpa using h

/-- Witness for C5: the concrete healthy run serves the UI on the negotiated
port 45678. -/
theorem port_negotiation_reuse_witness :
    resultFresh.http_address.port = 45678 :=
  (port_negotiation_reuse envFresh resultFresh rfl).2.2

/-- Witness for C6: two resolved candidates yield two bound instances. -/
theorem one_instance_per_candidate_witness :
    resultFresh.servers.length = 2 := by
  simpa using (one_instance_per_candidate envFresh resultFresh [addrA, addrB] rfl rfl).2.1

/-- Witness for C7: the concrete run titles its window Test Installer. -/
theorem ui_host_params_witness :
    resultFresh.window_title = "Test Installer" :=
  (ui_host_params envFresh resultFresh sampleConfig rfl rfl).1

/-- Witness for C8: failing logger initialization dies with its diagnostic. -/
theorem fatal_startup_sequence_witness :
    mainRun envNoLogger = Except.error "Unable to setup logging!" :=
  (fatal_startup_sequence envNoLogger).1 rfl

/-- Witness for C9: with the first candidate bound and the second failing, the
run still dies with the bind diagnostic. -/
theorem bind_failure_all_or_nothing_witness :
    mainRun envPartialBind = Except.error "Failed to bind to address" :=
  bind_failure_all_or_nothing envPartialBind sampleConfig "/opt/app/installer" "/opt/app"
    (InstallerFramework.fresh sampleConfig) [addrA] addrB []
    rfl rfl rfl rfl rfl rfl rfl rfl (by decide) (by decide)

/-- Witness for C10: a concrete successful dispatch hands back the untouched
handle. -/
theorem dispatch_preserves_state_witness :
    sampleHandle = sampleHandle :=
  dispatch_preserves_state sampleHandle (Except.ok (CallbackType.SelectInstallDir "onDir"))
    "/tmp/x" sampleHandle ["onDir(\"/tmp/x\");"] rfl
